import Mathlib

/-
Shallow embedding of `dynamicforms/models.py` (django-dynamicforms).

The module is a Django model layer: an abstract `InheritanceResolveModel`
storing a `real_type` content-type tag, a tree of question classes
(`DynamicFormQuestion` and its four concrete variants), answer and response
tables, and a load-time registry of question-type classes.

Modelling conventions:
* Database tables are Lean lists of row structures; primary keys are `Nat`.
* Django's `Model.objects.get(pk=...)` is membership lookup; a miss is the
  `doesNotExist` error (Django `DoesNotExist`).
* Exceptions are an explicit `DjangoError`; in this module no database write
  ever precedes a raised exception (checked against the source), so a
  function returning `Except DjangoError DB` with an error leaves the
  database unchanged.
* Python strings handled by the regex `PATTERN` are modelled as `List Char`.
-/

namespace DynamicForms

/-- Django-level runtime errors surfaced by the modelled code. -/
inductive DjangoError where
  /-- `Model.DoesNotExist` from `objects.get` with no matching row. -/
  | doesNotExist : DjangoError
  /-- Python `AttributeError`, with the message. -/
  | attributeError : String → DjangoError
  /-- Python `IndexError`, from `findall(r)[0]` on an empty match list. -/
  | indexError : DjangoError
deriving DecidableEq, Repr

/-! ### Inheritance resolution (`InheritanceResolveModel`, models.py 35-65)

The concrete subclasses of `DynamicFormQuestion` (itself the only concrete
family deriving `InheritanceResolveModel`) are the four question types. -/

/-- The concrete question classes: the possible values of the `real_type`
content-type tag. -/
inductive QType where
  | textQ : QType
  | yesNoQ : QType
  | mcQ : QType
  | ratingQ : QType
deriving DecidableEq, Repr

/-- A row of the parent `dynamicformquestion` table: primary key plus the
stored `real_type` tag (`null=True`, hence `Option`). Other columns
(`question_text`, `order`, ...) are irrelevant to resolution. -/
structure ParentRow where
  pk : Nat
  real_type : Option QType
deriving DecidableEq, Repr

/-- The tables involved in inheritance resolution: the parent table and, for
each concrete subclass, the set of primary keys present in its child table
(Django multi-table inheritance: a child row shares its pk with its parent
row). -/
structure QuestionTables where
  parentTable : List ParentRow
  textTable : List Nat
  yesnoTable : List Nat
  mcTable : List Nat
  ratingTable : List Nat
deriving DecidableEq, Repr

/-- The child table of a concrete question class. -/
def childTable (db : QuestionTables) : QType → List Nat
  | .textQ => db.textTable
  | .yesNoQ => db.yesnoTable
  | .mcQ => db.mcTable
  | .ratingQ => db.ratingTable

/-- An in-memory model instance about to be saved: its Python runtime class
(`type(self)`), its `id` (`None` before the first save) and its current
`real_type` attribute. -/
structure UnsavedInstance where
  cls : QType
  id : Option Nat
  real_type : Option QType
deriving DecidableEq, Repr

/-- Insert a freshly created row (pk not yet in use) into the parent table and
into the child table of the instance's concrete class. -/
def insertRow (db : QuestionTables) (cls : QType) (row : ParentRow) : QuestionTables :=
  match cls with
  | .textQ => { db with parentTable := row :: db.parentTable,
                        textTable := row.pk :: db.textTable }
  | .yesNoQ => { db with parentTable := row :: db.parentTable,
                         yesnoTable := row.pk :: db.yesnoTable }
  | .mcQ => { db with parentTable := row :: db.parentTable,
                      mcTable := row.pk :: db.mcTable }
  | .ratingQ => { db with parentTable := row :: db.parentTable,
                          ratingTable := row.pk :: db.ratingTable }

/-- `InheritanceResolveModel.save` (models.py 48-51): when the instance has no
`id` yet, set `real_type` to the content type of `type(self)` and insert,
with the database assigning `newPk` as the primary key; otherwise keep
`real_type` as stored and update the row with the same pk in place. Returns
the updated tables and the saved parent-table row. -/
def InheritanceResolveModel.save (db : QuestionTables) (inst : UnsavedInstance)
    (newPk : Nat) : QuestionTables × ParentRow :=
  match inst.id with
  | none =>
    let row : ParentRow := ⟨newPk, some inst.cls⟩
    (insertRow db inst.cls row, row)
  | some i =>
    let row : ParentRow := ⟨i, inst.real_type⟩
    ({ db with parentTable := db.parentTable.map (fun r => if r.pk = i then row else r) },
     row)

/-- `InheritanceResolveModel.resolve` (models.py 56-62):
`self.real_type.get_object_for_this_type(pk=self.pk)`. When `real_type` is
`None`, the attribute access on `None` raises `AttributeError`, caught and
re-raised with the instance in the message; otherwise the concrete row with
the same pk is fetched from the tagged class's table (`DoesNotExist` when it
is absent, which is not caught). The resolved object is (concrete class, pk). -/
def InheritanceResolveModel.resolve (db : QuestionTables) (row : ParentRow) :
    Except DjangoError (QType × Nat) :=
  match row.real_type with
  | none => .error (.attributeError "Failed to access real type")
  | some t =>
    if row.pk ∈ childTable db t then .ok (t, row.pk) else .error .doesNotExist

/-! ### Question ordering (`DynamicFormQuestion.Meta`, models.py 91-92)

`ordering = ['order', 'id']`: every queryset enumeration of questions comes
back sorted by `order` ascending, ties broken by `id` ascending. -/

/-- A `dynamicformquestion` row as relevant to ordering: primary key, the
`order` integer field (default 1000) and the owning form. -/
structure QuestionRow where
  id : Nat
  order : Int
  form : Nat
deriving DecidableEq, Repr

/-- The lexicographic order `(order, id)` used by `Meta.ordering = ['order', 'id']`. -/
def questionKeyLe (a b : QuestionRow) : Prop :=
  a.order < b.order ∨ (a.order = b.order ∧ a.id ≤ b.id)

instance : DecidableRel questionKeyLe := fun a b =>
  inferInstanceAs (Decidable (_ ∨ _))

instance : IsTotal QuestionRow questionKeyLe :=
  ⟨by intro a b; unfold questionKeyLe; omega⟩

instance : IsTrans QuestionRow questionKeyLe :=
  ⟨by
    intro a b c hab hbc
    unfold questionKeyLe at *
    omega⟩

/-- Enumerating the questions of one form: the rows whose generic foreign key
points at the form, returned by the database sorted according to
`Meta.ordering = ['order', 'id']` (modelled by an insertion sort under the
lexicographic key). -/
def DynamicForm.questions (rows : List QuestionRow) (form : Nat) : List QuestionRow :=
  List.insertionSort questionKeyLe (rows.filter (fun q => q.form == form))

/-! ### Response persistence (models.py 122-302)

Tables touched by the `save_response` classmethods. Users, questions, answer
rows and response sets are referenced by primary key. -/

/-- A `DynamicMultipleChoiceAnswer` row (models.py 143-145): pk, owning
question, answer text. -/
structure MCAnswerRow where
  id : Nat
  question : Nat
  answer_text : String
deriving DecidableEq, Repr

/-- A `DynamicTextResponse` row (models.py 270-275). -/
structure TextResponseRow where
  user : Nat
  question : Nat
  dynamic_response_set : Nat
  text_response : String
deriving DecidableEq, Repr

/-- A `DynamicMultipleChoiceResponse` row (models.py 278-283). -/
structure MCResponseRow where
  user : Nat
  question : Nat
  dynamic_response_set : Nat
  answer : Nat
deriving DecidableEq, Repr

/-- A `DynamicYesNoResponse` row (models.py 286-294): the answer is the
boolean `response` field. -/
structure YesNoResponseRow where
  user : Nat
  question : Nat
  dynamic_response_set : Nat
  response : Bool
deriving DecidableEq, Repr

/-- A `DynamicRatingResponse` row (models.py 297-302): the answer is a
foreign key to a `DynamicRatingAnswer`. -/
structure RatingResponseRow where
  user : Nat
  question : Nat
  dynamic_response_set : Nat
  response : Nat
deriving DecidableEq, Repr

/-- The database state seen by the response-saving code: one pk table per
concrete question class, the multiple-choice answer table, and the four
concrete response tables. -/
structure DB where
  textQuestions : List Nat
  yesnoQuestions : List Nat
  mcQuestions : List Nat
  ratingQuestions : List Nat
  mcAnswers : List MCAnswerRow
  textResponses : List TextResponseRow
  mcResponses : List MCResponseRow
  yesnoResponses : List YesNoResponseRow
  ratingResponses : List RatingResponseRow
deriving DecidableEq, Repr

/-- The database after running an operation that may have raised: on `ok` the
returned state, on an exception the state the operation started from (in
this module no write ever precedes a raise, see the header comment). -/
def finalDb (db : DB) : Except DjangoError DB → DB
  | .ok db' => db'
  | .error _ => db

/-- `DynamicTextQuestion.save_response` (models.py 132-140):
`cls.objects.get(pk=question_id)` then create a `DynamicTextResponse` linked
to the user, the question and the response set. -/
def DynamicTextQuestion.save_response (db : DB) (user question_id : Nat)
    (response : String) (response_set : Nat) : Except DjangoError DB :=
  if question_id ∈ db.textQuestions then
    .ok { db with textResponses :=
            db.textResponses ++ [⟨user, question_id, response_set, response⟩] }
  else .error .doesNotExist

/-- `DynamicYesNoQuestion.save_response` (models.py 198-206): create a
`DynamicYesNoResponse` whose boolean is `True if response == 'yes' else
False`. The submitted value may be any string or `None`. -/
def DynamicYesNoQuestion.save_response (db : DB) (user question_id : Nat)
    (response : Option String) (response_set : Nat) : Except DjangoError DB :=
  if question_id ∈ db.yesnoQuestions then
    .ok { db with yesnoResponses :=
            db.yesnoResponses ++ [⟨user, question_id, response_set,
                                   response == some "yes"⟩] }
  else .error .doesNotExist

/-! ### The multiple-choice name pattern (models.py 151-179)

`PATTERN = compile(r'^([a-z-]+)-([0-9]+)$')`. Choice names are rendered by
`get_choices` as `'dynamic-multiple-choice-answer-%d' % a.pk` and parsed back
in `save_response` by `cls.PATTERN.findall(r)[0]`. -/

/-- Membership in the regex character class `[a-z-]`. -/
def isPatWord (c : Char) : Bool :=
  ('a' ≤ c && c ≤ 'z') || c == '-'

/-- Membership in the regex character class `[0-9]`. -/
def isPatDigit (c : Char) : Bool :=
  '0' ≤ c && c ≤ '9'

/-- `PATTERN.findall(s)[0]`: the capture groups of the anchored match of
`^([a-z-]+)-([0-9]+)$` against `s`, or `none` when the regex does not match
(in which case the Python indexing `[0]` raises `IndexError`).

Because `[a-z-]` and `[0-9]` are disjoint and the match is anchored at both
ends, the backtracking semantics of the regex admit at most one split: group
one is the maximal `[a-z-]` prefix minus the final `-` separator, and group
two is the trailing digit run, which must reach the end of the string. -/
def PATTERN.findallHead (s : List Char) : Option (List Char × List Char) :=
  let p := s.takeWhile isPatWord
  let rest := s.dropWhile isPatWord
  if p.getLast? == some '-' && !p.dropLast.isEmpty
      && !rest.isEmpty && rest.all isPatDigit then
    some (p.dropLast, rest)
  else none

/-- `int(...)` coercion of one decimal digit character. -/
def charToDigit (c : Char) : Nat := c.toNat - 48

/-- Django's coercion of the decimal string `meta[1]` to an integer key for
`objects.get(id=...)`. -/
def parseDigits (l : List Char) : Nat :=
  l.foldl (fun a c => 10 * a + charToDigit c) 0

/-- The decimal digit characters of `n`, most significant first: the result
of Python's `'%d' % n`. -/
def decimalChars (n : Nat) : List Char :=
  if n = 0 then ['0']
  else ((Nat.digits 10 n).reverse).map (fun d => Char.ofNat (48 + d))

/-- The choice name `'dynamic-multiple-choice-answer-%d' % n` built by
`DynamicMultipleChoiceQuestion.get_choices` (models.py 157-160). -/
def mcChoiceName (n : Nat) : List Char :=
  "dynamic-multiple-choice-answer-".data ++ decimalChars n

/-- `DynamicMultipleChoiceQuestion.get_choices` (models.py 157-160): one
`(name % a.pk, a.answer_text)` pair per answer row owned by the question. -/
def DynamicMultipleChoiceQuestion.get_choices (db : DB) (question_id : Nat) :
    List (List Char × String) :=
  (db.mcAnswers.filter (fun a => a.question == question_id)).map
    (fun a => (mcChoiceName a.id, a.answer_text))

/-- The loop body of `DynamicMultipleChoiceQuestion.save_response`
(models.py 172-179). For each submitted name: `cls.PATTERN.findall(r)[0]`
(raising `IndexError` on no match), then
`DynamicMultipleChoiceAnswer.objects.get(id=meta[1])` (raising
`DoesNotExist` on a missing answer), then
`models.DynamicMultipleChoiceResponse.objects.create(...)`. In the source
`models` is the imported `django.db.models` module, which has no attribute
`DynamicMultipleChoiceResponse`, so reaching the create always raises
`AttributeError` before any row is written. -/
def mcResponseLoop (db : DB) (responses : List (List Char)) : Except DjangoError DB :=
  match responses with
  | [] => .ok db
  | r :: _ =>
    match PATTERN.findallHead r with
    | none => .error .indexError
    | some meta =>
      if (db.mcAnswers.filter (fun a => a.id == parseDigits meta.2)).isEmpty then
        .error .doesNotExist
      else
        .error (.attributeError
          "module django.db.models has no attribute DynamicMultipleChoiceResponse")

/-- The shared body of `save_response` on the `DynamicMultipleChoiceQuestion`
family (models.py 168-179), parameterised by the table `cls.objects` queries
(`cls` is the classmethod receiver): get the question, then `if responses:`
loop over the submitted names. -/
def mcFamilySaveResponse (clsTable : DB → List Nat) (db : DB)
    (question_id : Nat) (responses : List (List Char)) : Except DjangoError DB :=
  if question_id ∈ clsTable db then
    if responses.isEmpty then .ok db
    else mcResponseLoop db responses
  else .error .doesNotExist

/-- `DynamicMultipleChoiceQuestion.save_response` (models.py 168-179). The
`user` and `response_set` arguments are accepted but the create they feed is
never reached. -/
def DynamicMultipleChoiceQuestion.save_response (db : DB) (user question_id : Nat)
    (responses : List (List Char)) (response_set : Nat) : Except DjangoError DB :=
  mcFamilySaveResponse (fun d => d.mcQuestions) db question_id responses

/-- `DynamicRatingQuestion.save_response`: the class defines no override
(models.py 210-225), so the method is inherited from
`DynamicMultipleChoiceQuestion` with `cls = DynamicRatingQuestion`. -/
def DynamicRatingQuestion.save_response (db : DB) (user question_id : Nat)
    (responses : List (List Char)) (response_set : Nat) : Except DjangoError DB :=
  mcFamilySaveResponse (fun d => d.ratingQuestions) db question_id responses

/-! ### The response set union (`DynamicResponseSet.responses`, models.py 253-258) -/

/-- A response row of any of the four concrete response models. -/
inductive AnyResponse where
  | mc : MCResponseRow → AnyResponse
  | text : TextResponseRow → AnyResponse
  | rating : RatingResponseRow → AnyResponse
  | yesno : YesNoResponseRow → AnyResponse
deriving DecidableEq, Repr

/-- The `dynamic_response_set` foreign key every concrete response row
carries. -/
def AnyResponse.response_set : AnyResponse → Nat
  | .mc r => r.dynamic_response_set
  | .text r => r.dynamic_response_set
  | .rating r => r.dynamic_response_set
  | .yesno r => r.dynamic_response_set

/-- The `question` foreign key every concrete response row carries. -/
def AnyResponse.question_fk : AnyResponse → Nat
  | .mc r => r.question
  | .text r => r.question
  | .rating r => r.question
  | .yesno r => r.question

/-- Whether a response row is stored in its concrete table of the database. -/
def AnyResponse.stored (db : DB) : AnyResponse → Prop
  | .mc r => r ∈ db.mcResponses
  | .text r => r ∈ db.textResponses
  | .rating r => r ∈ db.ratingResponses
  | .yesno r => r ∈ db.yesnoResponses

/-- `DynamicResponseSet.responses` (models.py 253-258): the concatenation of
the reverse foreign-key sets `dynamicmultiplechoiceresponse_set`,
`dynamictextresponse_set`, `dynamicratingresponse_set` and
`dynamicyesnoresponse_set` of the response set, in that order. -/
def DynamicResponseSet.responses (db : DB) (rs : Nat) : List AnyResponse :=
  (db.mcResponses.filter (fun r => r.dynamic_response_set == rs)).map .mc ++
  (db.textResponses.filter (fun r => r.dynamic_response_set == rs)).map .text ++
  (db.ratingResponses.filter (fun r => r.dynamic_response_set == rs)).map .rating ++
  (db.yesnoResponses.filter (fun r => r.dynamic_response_set == rs)).map .yesno

/-! ### Question-type registration (models.py 310-374) -/

/-- A question-type class as seen by `register_questions_types`: its
`pretty_name()` classmethod value, its `_meta.module_name` slug, its
`_meta.app_label`, and whether it has a `choice_class` attribute (used by
`register_admin`). The `tag` field keeps distinct classes distinct. -/
structure QClass where
  tag : Nat
  pretty_name : String
  module_name : String
  app_label : String
  has_choice_class : Bool
deriving DecidableEq, Repr

/-- A registry entry built by `register_questions_types` (models.py 327-331):
the keys `pretty_name`, `slug` and `class` of the Python dict. -/
structure RegistryEntry where
  pretty_name : String
  slug : String
  class_ : QClass
deriving DecidableEq, Repr

/-- Modelled from the spec: `utils.get_class` (imported at models.py 13, not
part of this source tree) imports/looks up the class named by a dotted-path
configuration string, raising the passed exception class
(`QuestionTypeRegisterError`) when the import or lookup fails. An importer
maps a string to `some` class on success and `none` when registration of the
type fails. -/
def Importer : Type := String → Option QClass

/-- The loop of `register_questions_types` (models.py 321-331): for each type
string, try `get_class`; on `QuestionTypeRegisterError`, print the failure
and `continue`; on success, append the registry entry. -/
def registerLoop (imp : Importer) : List String → List RegistryEntry
  | [] => []
  | t :: rest =>
    match imp t with
    | none => registerLoop imp rest
    | some c => ⟨c.pretty_name, c.module_name, c⟩ :: registerLoop imp rest

/-- `register_questions_types(*tuples)` (models.py 310-332):
`itertools.chain(*tuples)` flattens the argument tuples, then the loop builds
the registry list. -/
def register_questions_types (imp : Importer) (tuples : List (List String)) :
    List RegistryEntry :=
  registerLoop imp tuples.flatten

/-- The registry the spec describes: an entry `(pretty_name, slug, class)` for
exactly the types whose import succeeds, in input order. Stated from the
spec's words, to be compared with `register_questions_types`. -/
def registrySpec (imp : Importer) (types : List String) : List RegistryEntry :=
  types.filterMap (fun t => (imp t).map (fun c => ⟨c.pretty_name, c.module_name, c⟩))

/-- `DEFAULT_QUESTION_TYPES` (models.py 27-32). -/
def DEFAULT_QUESTION_TYPES : List String :=
  [ "dynamicforms.models.DynamicTextQuestion",
    "dynamicforms.models.DynamicYesNoQuestion",
    "dynamicforms.models.DynamicMultipleChoiceQuestion",
    "dynamicforms.models.DynamicRatingQuestion" ]

/-- The module-level state built while `dynamicforms.models` is imported:
`QUESTION_TYPES`, `CHOICES`, and the admin site's registry (the classes
passed to `admin.site.register`). -/
structure ModuleState where
  question_types : List RegistryEntry
  choices : List (String × String)
  admin_registry : List QClass
deriving DecidableEq, Repr

/-- `_get_creation_choices` (models.py 339-350): a blank choice followed by
one admin add-URL choice per registered question type. -/
def getCreationChoices (qt : List RegistryEntry) : List (String × String) :=
  ("", "------") ::
    qt.map (fun q =>
      ("/admin/" ++ q.class_.app_label ++ "/" ++ q.slug ++ "/add/", q.pretty_name))

/-- `register_admin` (models.py 357-371): registers each question type's class
with the admin site. It reads `QUESTION_TYPES` and writes only the admin
registry. -/
def register_admin (s : ModuleState) : ModuleState :=
  { s with admin_registry :=
      s.admin_registry ++ s.question_types.map (fun t => t.class_) }

/-- The module import sequence (models.py 335-374): compute `QUESTION_TYPES`
from the default types followed by the configured custom types, compute
`CHOICES`, then run `register_admin()`. Nothing later in the module assigns
to `QUESTION_TYPES` again. -/
def moduleInit (imp : Importer) (customTypes : List String) : ModuleState :=
  let qt := register_questions_types imp [DEFAULT_QUESTION_TYPES, customTypes]
  register_admin { question_types := qt, choices := getCreationChoices qt,
                   admin_registry := [] }

/-! ## Theorems -/

/-- C1: saving a new instance of a concrete subclass of
`InheritanceResolveModel` stores the concrete class as `real_type`, and
calling `resolve()` on the saved parent-typed row returns the instance of
that concrete subtype with the same pk. -/
theorem save_then_resolve (db : QuestionTables) (inst : UnsavedInstance)
    (newPk : Nat) (h : inst.id = none) :
    (InheritanceResolveModel.save db inst newPk).2.real_type = some inst.cls ∧
    (InheritanceResolveModel.save db inst newPk).2.pk = newPk ∧
    InheritanceResolveModel.resolve (InheritanceResolveModel.save db inst newPk).1
      (InheritanceResolveModel.save db inst newPk).2 = .ok (inst.cls, newPk) := by
  obtain ⟨cls, id, rt⟩ := inst
  simp only at h
  subst h
  cases cls <;>
    simp [InheritanceResolveModel.save, InheritanceResolveModel.resolve,
      insertRow, childTable]

/-- C1 witness: a fresh text question saved into an empty database resolves
back to the text class at pk 1. -/
theorem save_then_resolve_witness :
    (InheritanceResolveModel.save ⟨[], [], [], [], []⟩ ⟨QType.textQ, none, none⟩ 1).2.real_type
        = some QType.textQ ∧
    (InheritanceResolveModel.save ⟨[], [], [], [], []⟩ ⟨QType.textQ, none, none⟩ 1).2.pk = 1 ∧
    InheritanceResolveModel.resolve
      (InheritanceResolveModel.save ⟨[], [], [], [], []⟩ ⟨QType.textQ, none, none⟩ 1).1
      (InheritanceResolveModel.save ⟨[], [], [], [], []⟩ ⟨QType.textQ, none, none⟩ 1).2
      = .ok (QType.textQ, 1) :=
  save_then_resolve ⟨[], [], [], [], []⟩ ⟨QType.textQ, none, none⟩ 1 rfl

/-- C4: `resolve()` raises an `AttributeError` exactly on a row whose stored
`real_type` tag is `None`, and succeeds on a row whose tag is a valid
content type for an existing concrete row with the same pk. -/
theorem resolve_attribute_error (db : QuestionTables) (row : ParentRow) :
    (row.real_type = none →
      InheritanceResolveModel.resolve db row =
        .error (.attributeError "Failed to access real type")) ∧
    (∀ t : QType, row.real_type = some t → row.pk ∈ childTable db t →
      InheritanceResolveModel.resolve db row = .ok (t, row.pk)) := by
  constructor
  · intro h
    simp [InheritanceResolveModel.resolve, h]
  · intro t h hm
    simp [InheritanceResolveModel.resolve, h, hm]

/-- C4 witness: a tagless row at pk 5 raises, a text-tagged row at pk 5 whose
concrete row exists resolves. -/
theorem resolve_attribute_error_witness :
    InheritanceResolveModel.resolve ⟨[⟨5, none⟩], [], [], [], []⟩ ⟨5, none⟩ =
      .error (.attributeError "Failed to access real type") ∧
    InheritanceResolveModel.resolve ⟨[⟨5, some QType.textQ⟩], [5], [], [], []⟩
      ⟨5, some QType.textQ⟩ = .ok (QType.textQ, 5) :=
  ⟨(resolve_attribute_error ⟨[⟨5, none⟩], [], [], [], []⟩ ⟨5, none⟩).1 rfl,
   (resolve_attribute_error ⟨[⟨5, some QType.textQ⟩], [5], [], [], []⟩
      ⟨5, some QType.textQ⟩).2 QType.textQ rfl (by simp [childTable])⟩

/-- C5: for every form and every assignment of `order` values, enumerating
the form's questions yields exactly its rows (a permutation of the filter by
form), sorted by `order` ascending and then by `id` ascending. -/
theorem questions_sorted_by_order_id (rows : List QuestionRow) (form : Nat) :
    List.Sorted questionKeyLe (DynamicForm.questions rows form) ∧
    (DynamicForm.questions rows form).Perm
      (rows.filter (fun q => q.form == form)) :=
  ⟨List.sorted_insertionSort questionKeyLe _,
   List.perm_insertionSort questionKeyLe _⟩

/-- C10: calling `DynamicMultipleChoiceQuestion.save_response` with an empty
(falsy) responses collection leaves the database — in particular every
stored response of every response set — unchanged, for every user, question
id and response set. -/
theorem mc_empty_responses_noop (db : DB) (user question_id response_set : Nat) :
    finalDb db (DynamicMultipleChoiceQuestion.save_response db user question_id
      [] response_set) = db := by
  by_cases h : question_id ∈ db.mcQuestions <;>
    simp [DynamicMultipleChoiceQuestion.save_response, mcFamilySaveResponse,
      finalDb, h]

/-- C3: `register_questions_types` returns a registry entry for exactly the
configured type strings whose import succeeds, in input order, skipping
(without aborting) exactly those whose import raises
`QuestionTypeRegisterError`. -/
theorem register_questions_types_skips_failures (imp : Importer)
    (tuples : List (List String)) :
    register_questions_types imp tuples = registrySpec imp tuples.flatten := by
  unfold register_questions_types registrySpec
  generalize tuples.flatten = l
  induction l with
  | nil => rfl
  | cons t rest ih =>
    cases h : imp t <;> simp [registerLoop, h, ih]

/-- C7: `QUESTION_TYPES` is built exactly once at module import as the
registration of the default question types followed by the configured custom
types, and the one later module-level operation that touches shared state
(`register_admin`) does not change it. -/
theorem question_types_built_once (imp : Importer) (custom : List String) :
    (moduleInit imp custom).question_types =
      register_questions_types imp [DEFAULT_QUESTION_TYPES, custom] ∧
    (∀ s : ModuleState, (register_admin s).question_types = s.question_types) :=
  ⟨rfl, fun _ => rfl⟩

/-- C6: a response set's `responses` collection holds exactly the stored
concrete response rows — of the four per-question-type response models —
whose `dynamic_response_set` foreign key is the response set. -/
theorem responses_is_union (db : DB) (rs : Nat) (x : AnyResponse) :
    x ∈ DynamicResponseSet.responses db rs ↔
      (AnyResponse.stored db x ∧ x.response_set = rs) := by
  cases x <;>
    simp [DynamicResponseSet.responses, AnyResponse.stored,
      AnyResponse.response_set, List.mem_filter, and_comm]

/-- C8: `DynamicYesNoQuestion.save_response` appends exactly one yes/no
response row whose stored boolean is `response == 'yes'`, and that boolean
is `true` precisely when the submitted value is the exact string `'yes'` —
every other value (including `'Yes'`, `'no'`, `''` or `None`) stores
`false` rather than being rejected. -/
theorem yesno_stores_iff_exactly_yes (db : DB) (user question_id : Nat)
    (response : Option String) (response_set : Nat)
    (h : question_id ∈ db.yesnoQuestions) :
    DynamicYesNoQuestion.save_response db user question_id response response_set =
      .ok { db with yesnoResponses := db.yesnoResponses ++
              [⟨user, question_id, response_set, response == some "yes"⟩] } ∧
    ((response == some "yes") = true ↔ response = some "yes") := by
  constructor
  · simp [DynamicYesNoQuestion.save_response, h]
  · exact beq_iff_eq

/-- C8 witness: submitting `'Yes'` to yes/no question 2 stores the boolean
`false` rather than raising. -/
theorem yesno_stores_iff_exactly_yes_witness :
    DynamicYesNoQuestion.save_response ⟨[], [2], [], [], [], [], [], [], []⟩
        1 2 (some "Yes") 3 =
      .ok { textQuestions := [], yesnoQuestions := [2], mcQuestions := [],
            ratingQuestions := [], mcAnswers := [], textResponses := [],
            mcResponses := [],
            yesnoResponses := [⟨1, 2, 3, some "Yes" == some "yes"⟩],
            ratingResponses := [] } ∧
    ((some "Yes" == some "yes") = true ↔ (some "Yes" : Option String) = some "yes") :=
  yesno_stores_iff_exactly_yes ⟨[], [2], [], [], [], [], [], [], []⟩
    1 2 (some "Yes") 3 (by simp)

/-- C2 (code bug): on a database holding multiple-choice question 1 with
answer 7 (and rating question 1), submitting the displayed choice name to
`DynamicMultipleChoiceQuestion.save_response` raises `AttributeError` —
the source resolves the response model through the imported
`django.db.models` module, which has no such attribute — persisting nothing;
and `DynamicRatingQuestion` defines no `save_response` of its own, so the
inherited method likewise never writes a `DynamicRatingResponse` row. -/
theorem mc_save_response_attribute_error :
    (DynamicMultipleChoiceQuestion.save_response
        ⟨[], [], [1], [1], [⟨7, 1, "Red"⟩], [], [], [], []⟩
        1 1 ["dynamic-multiple-choice-answer-7".data] 4 =
      .error (.attributeError
        "module django.db.models has no attribute DynamicMultipleChoiceResponse")) ∧
    (DynamicRatingQuestion.save_response
        ⟨[], [], [1], [1], [⟨7, 1, "Red"⟩], [], [], [], []⟩
        1 1 ["dynamic-multiple-choice-answer-7".data] 4 =
      .error (.attributeError
        "module django.db.models has no attribute DynamicMultipleChoiceResponse")) := by
  constructor <;> rfl

/-! Helper lemmas for the choice-name round trip (C9). -/

theorem digitChar_props : ∀ d, d < 10 →
    (isPatWord (Char.ofNat (48 + d)) = false ∧
     isPatDigit (Char.ofNat (48 + d)) = true ∧
     charToDigit (Char.ofNat (48 + d)) = d) := by decide

theorem takeWhile_append_all {p : Char → Bool} {xs ys : List Char}
    (h : ∀ c ∈ xs, p c = true) :
    (xs ++ ys).takeWhile p = xs ++ ys.takeWhile p := by
  induction xs with
  | nil => rfl
  | cons c cs ih =>
    have hc := h c (by simp)
    have ih2 := ih (fun x hx => h x (by simp [hx]))
    simp [List.takeWhile_cons, hc, ih2]

theorem dropWhile_append_all {p : Char → Bool} {xs ys : List Char}
    (h : ∀ c ∈ xs, p c = true) :
    (xs ++ ys).dropWhile p = ys.dropWhile p := by
  induction xs with
  | nil => rfl
  | cons c cs ih =>
    have hc := h c (by simp)
    have ih2 := ih (fun x hx => h x (by simp [hx]))
    simp [List.dropWhile_cons, hc, ih2]

theorem decimalChars_digits (n : Nat) :
    ∀ c ∈ decimalChars n, isPatDigit c = true ∧ isPatWord c = false := by
  intro c hc
  unfold decimalChars at hc
  by_cases h0 : n = 0
  · subst h0
    simp at hc
    subst hc
    decide
  · rw [if_neg h0] at hc
    obtain ⟨d, hd, rfl⟩ := List.mem_map.mp hc
    have hlt : d < 10 := Nat.digits_lt_base (by norm_num) (List.mem_reverse.mp hd)
    exact ⟨(digitChar_props d hlt).2.1, (digitChar_props d hlt).1⟩

theorem decimalChars_ne_nil (n : Nat) : decimalChars n ≠ [] := by
  unfold decimalChars
  by_cases h0 : n = 0
  · simp [h0]
  · rw [if_neg h0]
    simp [Nat.digits_ne_nil_iff_ne_zero.mpr h0]

theorem foldr_charToDigit (L : List Nat) (h : ∀ d ∈ L, d < 10) :
    L.foldr (fun d a => 10 * a + charToDigit (Char.ofNat (48 + d))) 0 =
      Nat.ofDigits 10 L := by
  induction L with
  | nil => simp [Nat.ofDigits]
  | cons d L ih =>
    have hd : charToDigit (Char.ofNat (48 + d)) = d :=
      (digitChar_props d (h d (by simp))).2.2
    simp [Nat.ofDigits_cons, hd, ih (fun x hx => h x (by simp [hx]))]
    ring

theorem parse_decimalChars (n : Nat) : parseDigits (decimalChars n) = n := by
  by_cases h0 : n = 0
  · subst h0; decide
  · unfold decimalChars
    rw [if_neg h0]
    unfold parseDigits
    rw [List.foldl_map, List.foldl_reverse]
    rw [foldr_charToDigit _ (fun d hd => Nat.digits_lt_base (by norm_num) hd)]
    exact Nat.ofDigits_digits 10 n

/-- C9: for every answer primary key `n`, the choice name
`'dynamic-multiple-choice-answer-%d' % n` that `get_choices` displays is
matched by `PATTERN` with groups `('dynamic-multiple-choice-answer',
str(n))`, and the integer `save_response` parses from the second group is
exactly `n` — the answer looked up when saving is the one displayed. -/
theorem mc_choice_name_roundtrip (n : Nat) :
    PATTERN.findallHead (mcChoiceName n) =
      some ("dynamic-multiple-choice-answer".data, decimalChars n) ∧
    parseDigits (decimalChars n) = n := by
  refine ⟨?_, parse_decimalChars n⟩
  have hword : ∀ c ∈ "dynamic-multiple-choice-answer-".data, isPatWord c = true := by
    decide
  have hdig := decimalChars_digits n
  have hne := decimalChars_ne_nil n
  have htake0 : (decimalChars n).takeWhile isPatWord = [] := by
    cases hd : decimalChars n with
    | nil => rfl
    | cons c cs =>
      have hc := (hdig c (by simp [hd])).2
      simp [List.takeWhile_cons, hc]
  have hdrop0 : (decimalChars n).dropWhile isPatWord = decimalChars n := by
    cases hd : decimalChars n with
    | nil => rfl
    | cons c cs =>
      have hc := (hdig c (by simp [hd])).2
      simp [List.dropWhile_cons, hc]
  have hC : (decimalChars n).isEmpty = false := by
    simp [List.isEmpty_iff, hne]
  have hD : (decimalChars n).all isPatDigit = true :=
    List.all_eq_true.mpr (fun c hc => (hdig c hc).1)
  unfold PATTERN.findallHead mcChoiceName
  rw [takeWhile_append_all hword, dropWhile_append_all hword, htake0, hdrop0]
  simp [hC, hD]

end DynamicForms
